import Mathlib

/-!
Verification of `src/cost.py` (mcp-cost): an AWS cost checker that fetches
cost-and-usage data, extracts the set of billed service names, diffs it
against a baseline persisted in `previous_services.json`, rewrites the
baseline, and reports newly appeared services.

Shallow embedding conventions:
* Python values flowing through the program (the boto3 response dict, the
  JSON file contents, set elements) are modelled by the inductive `JValue`.
  JSON numbers are modelled as integers; no claim depends on float
  semantics.
* Python exceptions relevant to the source (`KeyError`, `IndexError`,
  `TypeError`) are modelled by `PyError`; a function that may raise an
  exception that the source does not catch returns `Except PyError _`.
* A Python `set` is modelled as a duplicate-free `List JValue` in insertion
  order.  CPython leaves set iteration order unspecified; the model fixes
  insertion order as one concrete refinement.  Claims about sets are stated
  up to `List.toFinset`, never about the order.
* The baseline file is modelled by `FileState`: absent, present but not
  valid JSON (the text would raise `json.JSONDecodeError`), or present and
  parsing to a `JValue`.  `json.dump`/`json.load` of the Python standard
  library are external collaborators; the model identifies a written file
  with the JSON value it serialises, which is faithful because `json.dump`
  always emits text that `json.load` parses back to an equal value.
* The AWS Cost Explorer call inside `get_cost_and_usage` is an external
  collaborator; its outcome (a response, or an exception) is an oracle
  input `Except Unit JValue`.  Whether the `open(..., 'w')`/`json.dump` in
  `save_current_services` succeeds is likewise an oracle input `writeOk`
  (on failure the source catches `IOError` and logs; the model leaves the
  prior file state in place, and no claim depends on that branch).
* The computed dates (`today`, `six_months_ago`) only feed the oracle call
  and are not modelled.
-/

/-- Model of the Python/JSON values manipulated by the program. -/
inductive JValue : Type where
  | null : JValue
  | bool (b : Bool) : JValue
  | num (n : Int) : JValue
  | str (s : String) : JValue
  | arr (elems : List JValue) : JValue
  | obj (fields : List (String × JValue)) : JValue

mutual

def decEqV : (a b : JValue) → Decidable (a = b)
  | .null, .null => isTrue rfl
  | .bool a, .bool c =>
    match decEq a c with
    | isTrue h => isTrue (h ▸ rfl)
    | isFalse h => isFalse (fun hh => by cases hh; exact h rfl)
  | .num a, .num c =>
    match decEq a c with
    | isTrue h => isTrue (h ▸ rfl)
    | isFalse h => isFalse (fun hh => by cases hh; exact h rfl)
  | .str a, .str c =>
    match decEq a c with
    | isTrue h => isTrue (h ▸ rfl)
    | isFalse h => isFalse (fun hh => by cases hh; exact h rfl)
  | .arr a, .arr c =>
    match decEqL a c with
    | isTrue h => isTrue (h ▸ rfl)
    | isFalse h => isFalse (fun hh => by cases hh; exact h rfl)
  | .obj a, .obj c =>
    match decEqF a c with
    | isTrue h => isTrue (h ▸ rfl)
    | isFalse h => isFalse (fun hh => by cases hh; exact h rfl)
  | .null, .bool _ => isFalse (fun h => JValue.noConfusion h)
  | .null, .num _ => isFalse (fun h => JValue.noConfusion h)
  | .null, .str _ => isFalse (fun h => JValue.noConfusion h)
  | .null, .arr _ => isFalse (fun h => JValue.noConfusion h)
  | .null, .obj _ => isFalse (fun h => JValue.noConfusion h)
  | .bool _, .null => isFalse (fun h => JValue.noConfusion h)
  | .bool _, .num _ => isFalse (fun h => JValue.noConfusion h)
  | .bool _, .str _ => isFalse (fun h => JValue.noConfusion h)
  | .bool _, .arr _ => isFalse (fun h => JValue.noConfusion h)
  | .bool _, .obj _ => isFalse (fun h => JValue.noConfusion h)
  | .num _, .null => isFalse (fun h => JValue.noConfusion h)
  | .num _, .bool _ => isFalse (fun h => JValue.noConfusion h)
  | .num _, .str _ => isFalse (fun h => JValue.noConfusion h)
  | .num _, .arr _ => isFalse (fun h => JValue.noConfusion h)
  | .num _, .obj _ => isFalse (fun h => JValue.noConfusion h)
  | .str _, .null => isFalse (fun h => JValue.noConfusion h)
  | .str _, .bool _ => isFalse (fun h => JValue.noConfusion h)
  | .str _, .num _ => isFalse (fun h => JValue.noConfusion h)
  | .str _, .arr _ => isFalse (fun h => JValue.noConfusion h)
  | .str _, .obj _ => isFalse (fun h => JValue.noConfusion h)
  | .arr _, .null => isFalse (fun h => JValue.noConfusion h)
  | .arr _, .bool _ => isFalse (fun h => JValue.noConfusion h)
  | .arr _, .num _ => isFalse (fun h => JValue.noConfusion h)
  | .arr _, .str _ => isFalse (fun h => JValue.noConfusion h)
  | .arr _, .obj _ => isFalse (fun h => JValue.noConfusion h)
  | .obj _, .null => isFalse (fun h => JValue.noConfusion h)
  | .obj _, .bool _ => isFalse (fun h => JValue.noConfusion h)
  | .obj _, .num _ => isFalse (fun h => JValue.noConfusion h)
  | .obj _, .str _ => isFalse (fun h => JValue.noConfusion h)
  | .obj _, .arr _ => isFalse (fun h => JValue.noConfusion h)

def decEqL : (a b : List JValue) → Decidable (a = b)
  | [], [] => isTrue rfl
  | [], _ :: _ => isFalse (fun h => List.noConfusion h)
  | _ :: _, [] => isFalse (fun h => List.noConfusion h)
  | x :: xs, y :: ys =>
    match decEqV x y, decEqL xs ys with
    | isTrue h1, isTrue h2 => isTrue (h1 ▸ h2 ▸ rfl)
    | isFalse h1, _ => isFalse (fun hh => by cases hh; exact h1 rfl)
    | _, isFalse h2 => isFalse (fun hh => by cases hh; exact h2 rfl)

def decEqF : (a b : List (String × JValue)) → Decidable (a = b)
  | [], [] => isTrue rfl
  | [], _ :: _ => isFalse (fun h => List.noConfusion h)
  | _ :: _, [] => isFalse (fun h => List.noConfusion h)
  | (k, v) :: xs, (k2, v2) :: ys =>
    match decEq k k2, decEqV v v2, decEqF xs ys with
    | isTrue h0, isTrue h1, isTrue h2 => isTrue (h0 ▸ h1 ▸ h2 ▸ rfl)
    | isFalse h0, _, _ => isFalse (fun hh => by cases hh; exact h0 rfl)
    | _, isFalse h1, _ => isFalse (fun hh => by cases hh; exact h1 rfl)
    | _, _, isFalse h2 => isFalse (fun hh => by cases hh; exact h2 rfl)

end

instance : DecidableEq JValue := decEqV

deriving instance DecidableEq for Except

/-- Model of the Python exceptions the source can encounter while walking
response/file data: KeyError (caught by `extract_services`), IndexError
(from a subscript such as a 0-index on an empty list, not caught anywhere)
and TypeError (from subscripting or iterating a value of the wrong type,
or joining non-strings, not caught anywhere). -/
inductive PyError : Type where
  | keyError : PyError
  | indexError : PyError
  | typeError : PyError
deriving DecidableEq, Repr

/-- First-match lookup in the field list of a JSON object (Python dicts
have unique keys, so first-match agrees with dict lookup). -/
def lookupField : List (String × JValue) → String → Option JValue
  | [], _ => none
  | (k, v) :: rest, key => if k = key then some v else lookupField rest key

/-- Model of the Python subscript `x[key]` with a string key: on a dict it
is a lookup raising KeyError when the key is missing; on any other value
it raises TypeError. -/
def getItem : JValue → String → Except PyError JValue
  | .obj fields, key =>
    match lookupField fields key with
    | some v => .ok v
    | none => .error .keyError
  | _, _ => .error .typeError

/-- Model of the Python subscript `x[0]`: on a list, the head or IndexError
when empty; on a string, the first character or IndexError when empty; on a
dict, KeyError (an integer key is never among the string keys of the JSON
dicts modelled here); on any other value, TypeError. -/
def getIndex0 : JValue → Except PyError JValue
  | .arr [] => .error .indexError
  | .arr (x :: _) => .ok x
  | .str s =>
    match s.data with
    | [] => .error .indexError
    | c :: _ => .ok (.str (String.mk [c]))
  | .obj _ => .error .keyError
  | _ => .error .typeError

/-- Model of Python iteration `for x in v`: a list yields its elements, a
dict yields its keys, a string yields its one-character substrings, and
any other value raises TypeError. -/
def pyIter : JValue → Except PyError (List JValue)
  | .arr xs => .ok xs
  | .obj fields => .ok (fields.map (fun p => JValue.str p.1))
  | .str s => .ok (s.data.map (fun c => JValue.str (String.mk [c])))
  | _ => .error .typeError

/-- Model of Python truthiness for the values of `JValue` (None, False, 0,
empty string, empty list and empty dict are falsy). -/
def pyTruthy : JValue → Bool
  | .null => false
  | .bool b => b
  | .num n => n ≠ 0
  | .str s => s ≠ ""
  | .arr l => l ≠ []
  | .obj l => l ≠ []

/-- Model of `set.add`: sets are duplicate-free lists in insertion order,
so adding keeps the list unchanged when the element is present and appends
it otherwise. -/
def setAdd (acc : List JValue) (x : JValue) : List JValue :=
  if x ∈ acc then acc else acc ++ [x]

/-- Model of the Python `set(...)` constructor applied to an already
iterated list of elements. -/
def pySetOfList (l : List JValue) : List JValue :=
  l.foldl setAdd []

/-- Values handed to `str.join` must all be strings; this extracts them,
raising TypeError otherwise (the behaviour of `', '.join(...)` on a
non-string element). -/
def strValues : List JValue → Except PyError (List String)
  | [] => .ok []
  | JValue.str s :: rest => (strValues rest).map (fun tl => s :: tl)
  | _ :: _ => .error .typeError

/-- Model of `sep.join(elems)`. -/
def pyJoin (sep : String) (elems : List JValue) : Except PyError String :=
  (strValues elems).map (fun l => String.intercalate sep l)

/-- State of the baseline file `previous_services.json`: missing, present
with contents that raise `json.JSONDecodeError`, or present with contents
parsing to the given JSON value. -/
inductive FileState : Type where
  | absent : FileState
  | invalid : FileState
  | json (v : JValue) : FileState
deriving DecidableEq

/-- Translation of `get_cost_and_usage` (src/cost.py lines 23-35): the
Cost Explorer call either produces a response or raises; the `except` arm
logs and returns None, modelled as `none`. -/
def get_cost_and_usage (api : Except Unit JValue) : Option JValue :=
  match api with
  | .ok response => some response
  | .error _ => none

/-- Inner loop of `extract_services` (src/cost.py lines 42-44): walk the
groups of one time bucket, adding `group['Keys'][0]` to the accumulated
set; the pair's second component records the first exception raised, with
everything collected strictly before it. -/
def extractFromGroups : List JValue → List JValue → List JValue × Option PyError
  | [], acc => (acc, none)
  | g :: gs, acc =>
    match getItem g "Keys" with
    | .error e => (acc, some e)
    | .ok keys =>
      match getIndex0 keys with
      | .error e => (acc, some e)
      | .ok name => extractFromGroups gs (setAdd acc name)

/-- Outer loop of `extract_services` (src/cost.py lines 41-44): walk the
time buckets, iterating `result['Groups']` for each; stops at the first
exception, reporting it with the set collected so far. -/
def extractFromResults : List JValue → List JValue → List JValue × Option PyError
  | [], acc => (acc, none)
  | r :: rs, acc =>
    match getItem r "Groups" with
    | .error e => (acc, some e)
    | .ok gv =>
      match pyIter gv with
      | .error e => (acc, some e)
      | .ok groups =>
        match extractFromGroups groups acc with
        | (acc2, none) => extractFromResults rs acc2
        | (acc2, some e) => (acc2, some e)

/-- Translation of `extract_services` (src/cost.py lines 37-47).  The
`try` block walks `data['ResultsByTime']`; `except KeyError` logs and
falls through to `return services`, so a KeyError anywhere ends the walk
and the partial set is returned, while any other exception (IndexError,
TypeError) propagates to the caller, modelled as `.error`. -/
def extract_services (data : JValue) : Except PyError (List JValue) :=
  match getItem data "ResultsByTime" with
  | .error .keyError => .ok []
  | .error e => .error e
  | .ok v =>
    match pyIter v with
    | .error e => .error e
    | .ok results =>
      match extractFromResults results [] with
      | (services, none) => .ok services
      | (services, some .keyError) => .ok services
      | (_, some e) => .error e

/-- Translation of `load_previous_services` (src/cost.py lines 49-59):
FileNotFoundError and json.JSONDecodeError are caught and yield the empty
set; otherwise the parsed value is fed to `set(...)`, whose iteration
raises TypeError on a non-iterable (e.g. a file containing `3`) — that
exception is not caught. -/
def load_previous_services : FileState → Except PyError (List JValue)
  | .absent => .ok []
  | .invalid => .ok []
  | .json v =>
    match pyIter v with
    | .error e => .error e
    | .ok elems => .ok (pySetOfList elems)

/-- Translation of `save_current_services` (src/cost.py lines 61-67):
`json.dump(list(services), f)` replaces the file with the JSON array of
the set's elements; on IOError the source only logs (the model keeps the
prior state; no claim depends on the failure branch). -/
def save_current_services (services : List JValue) (writeOk : Bool)
    (fs : FileState) : FileState :=
  if writeOk then .json (.arr services) else fs

/-- Translation of `compare_services` (src/cost.py lines 69-72):
`current_month_services - last_month_services`. -/
def compare_services (last_month_services current_month_services : List JValue) :
    List JValue :=
  current_month_services.filter (fun x => decide (x ∉ last_month_services))

/-- Translation of `flag_new_services` (src/cost.py lines 74-111).
Inputs: the unused `region` argument, the oracle outcome of the Cost
Explorer call, the oracle for write success, and the baseline file state.
Output: the returned string (or the uncaught exception) together with the
final file state.  `if not cost_data` tests Python truthiness, so a falsy
response is handled like `None`. -/
def flag_new_services (_region : String) (api : Except Unit JValue)
    (writeOk : Bool) (fs : FileState) : Except PyError String × FileState :=
  match get_cost_and_usage api with
  | none => (.ok "Error: Could not fetch AWS cost data", fs)
  | some cost_data =>
    if pyTruthy cost_data then
      match extract_services cost_data with
      | .error e => (.error e, fs)
      | .ok current_month_services =>
        if current_month_services = [] then
          (.ok "No services found in the AWS cost data.", fs)
        else
          match load_previous_services fs with
          | .error e => (.error e, fs)
          | .ok previous_services =>
            let new_services :=
              compare_services previous_services current_month_services
            let fs2 := save_current_services current_month_services writeOk fs
            if new_services = [] then
              (.ok "No new AWS services detected since last check.", fs2)
            else
              match pyJoin ", " new_services with
              | .error e => (.error e, fs2)
              | .ok joined =>
                (.ok ("New AWS services detected: " ++ joined), fs2)
    else
      (.ok "Error: Could not fetch AWS cost data", fs)

/-! Helper lemmas about the set model. -/

theorem mem_setAdd (acc : List JValue) (y x : JValue) :
    x ∈ setAdd acc y ↔ x ∈ acc ∨ x = y := by
  unfold setAdd
  split
  · rename_i hy
    constructor
    · exact Or.inl
    · rintro (h | h)
      · exact h
      · exact h ▸ hy
  · simp [List.mem_append]

theorem mem_foldl_setAdd (l : List JValue) (acc : List JValue) (x : JValue) :
    x ∈ l.foldl setAdd acc ↔ x ∈ acc ∨ x ∈ l := by
  induction l generalizing acc with
  | nil => simp
  | cons y ys ih =>
    simp only [List.foldl_cons, ih, mem_setAdd, List.mem_cons]
    tauto

theorem pySetOfList_toFinset (l : List JValue) :
    (pySetOfList l).toFinset = l.toFinset := by
  ext x
  simp [pySetOfList, List.mem_toFinset, mem_foldl_setAdd]

example :
    extract_services (JValue.obj [("ResultsByTime", JValue.arr
      [JValue.obj [("Groups", JValue.arr
        [JValue.obj [("Keys", JValue.arr [JValue.str "EC2"])],
         JValue.obj [("Keys", JValue.arr [JValue.str "S3"])]])]])]) =
    .ok [JValue.str "EC2", JValue.str "S3"] := by decide

example :
    extract_services (JValue.obj [("ResultsByTime", JValue.arr
      [JValue.obj [("Groups", JValue.arr
        [JValue.obj [("Keys", JValue.arr [])]])]])]) =
    .error PyError.indexError := by decide

example :
    (flag_new_services "us-east-1" (.error ()) true .absent).1 =
    .ok "Error: Could not fetch AWS cost data" := by decide

/-- C1: if the billing query returns no data (`get_cost_and_usage` yields
None), `flag_new_services` returns exactly the string "Error: Could not
fetch AWS cost data" and the baseline file state is unchanged — no write
occurs and no file is created if none existed. -/
theorem flag_query_failure_leaves_baseline (r : String)
    (api : Except Unit JValue) (w : Bool) (fs : FileState)
    (h : get_cost_and_usage api = none) :
    flag_new_services r api w fs =
      (.ok "Error: Could not fetch AWS cost data", fs) := by
  unfold flag_new_services
  rw [h]

theorem flag_query_failure_leaves_baseline_witness :
    get_cost_and_usage (Except.error ()) = none ∧
    flag_new_services "eu-west-1" (Except.error ()) true FileState.absent =
      (.ok "Error: Could not fetch AWS cost data", FileState.absent) :=
  ⟨rfl, flag_query_failure_leaves_baseline "eu-west-1" (Except.error ()) true
    FileState.absent rfl⟩

/-- C10: a falsy but non-None query response (for example an empty dict)
is handled exactly like a failed query, because the guard is `if not
cost_data`, a truthiness test: `flag_new_services` returns "Error: Could
not fetch AWS cost data" and the baseline is untouched. -/
theorem flag_falsy_response_treated_as_failure (r : String) (v : JValue)
    (w : Bool) (fs : FileState) (h : pyTruthy v = false) :
    flag_new_services r (.ok v) w fs =
      (.ok "Error: Could not fetch AWS cost data", fs) := by
  simp [flag_new_services, get_cost_and_usage, h]

theorem flag_falsy_response_treated_as_failure_witness :
    pyTruthy (JValue.obj []) = false ∧
    flag_new_services "us-east-1" (Except.ok (JValue.obj [])) true
      FileState.absent =
      (.ok "Error: Could not fetch AWS cost data", FileState.absent) :=
  ⟨rfl, flag_falsy_response_treated_as_failure "us-east-1" (JValue.obj [])
    true FileState.absent rfl⟩

/-- C7: `load_previous_services` returns the empty set without raising
when the baseline file is absent (FileNotFoundError is caught) and when it
is present but not valid JSON (json.JSONDecodeError is caught). -/
theorem load_missing_or_invalid_returns_empty :
    load_previous_services FileState.absent = .ok [] ∧
    load_previous_services FileState.invalid = .ok [] :=
  ⟨rfl, rfl⟩

/-- C3: `compare_services A B` is the set difference B - A (stated via
`toFinset` since the model's sets are duplicate-free lists), and in
particular `compare_services A A` is empty; the function is a total pure
function by construction. -/
theorem compare_services_is_set_difference (A B : List JValue) :
    (compare_services A B).toFinset = B.toFinset \ A.toFinset ∧
    compare_services A A = [] := by
  constructor
  · ext x
    simp [compare_services, List.mem_toFinset, List.mem_filter]
  · rw [compare_services, List.filter_eq_nil_iff]
    intro a ha
    simp [ha]

/-- C4: saving a finite set of strings and loading it back returns the
same set: the loaded list is the set of the saved elements and has exactly
the same elements as the saved set. -/
theorem save_load_round_trip (S : List String) (fs : FileState) :
    load_previous_services
        (save_current_services (S.map JValue.str) true fs) =
      .ok (pySetOfList (S.map JValue.str)) ∧
    (pySetOfList (S.map JValue.str)).toFinset = (S.map JValue.str).toFinset :=
  ⟨rfl, pySetOfList_toFinset _⟩

/-- C9: if the query returned data (a truthy response) but extraction
produced the empty set, `flag_new_services` returns exactly "No services
found in the AWS cost data." and stops with the baseline file untouched
(no load, no diff, no save). -/
theorem flag_empty_extraction_message (r : String) (v : JValue) (w : Bool)
    (fs : FileState) (ht : pyTruthy v = true)
    (he : extract_services v = .ok []) :
    flag_new_services r (.ok v) w fs =
      (.ok "No services found in the AWS cost data.", fs) := by
  simp [flag_new_services, get_cost_and_usage, ht, he]

theorem flag_empty_extraction_message_witness :
    pyTruthy (JValue.obj [("ResultsByTime", JValue.arr [])]) = true ∧
    extract_services (JValue.obj [("ResultsByTime", JValue.arr [])]) =
      .ok [] ∧
    flag_new_services "us-east-1"
      (Except.ok (JValue.obj [("ResultsByTime", JValue.arr [])])) true
      (FileState.json (JValue.arr [JValue.str "EC2"])) =
      (.ok "No services found in the AWS cost data.",
        FileState.json (JValue.arr [JValue.str "EC2"])) :=
  ⟨rfl, by decide, flag_empty_extraction_message "us-east-1"
    (JValue.obj [("ResultsByTime", JValue.arr [])]) true
    (FileState.json (JValue.arr [JValue.str "EC2"])) rfl (by decide)⟩

/-- Processing stops at the first exception: once the walk over a prefix
of the time buckets ends in an exception, appending further buckets
changes nothing. -/
theorem extractFromResults_stop (l1 l2 : List JValue)
    (acc collected : List JValue) (e : PyError)
    (h : extractFromResults l1 acc = (collected, some e)) :
    extractFromResults (l1 ++ l2) acc = (collected, some e) := by
  induction l1 generalizing acc with
  | nil => simp [extractFromResults] at h
  | cons r rs ih =>
    rw [List.cons_append]
    unfold extractFromResults at h ⊢
    cases hg : getItem r "Groups" with
    | error e2 =>
      rw [hg] at h
      exact h
    | ok gv =>
      rw [hg] at h
      have h1 : (match pyIter gv with
          | .error e2 => (acc, some e2)
          | .ok groups =>
            match extractFromGroups groups acc with
            | (acc2, none) => extractFromResults rs acc2
            | (acc2, some e2) => (acc2, some e2)) = (collected, some e) := h
      show (match pyIter gv with
          | .error e2 => (acc, some e2)
          | .ok groups =>
            match extractFromGroups groups acc with
            | (acc2, none) => extractFromResults (rs ++ l2) acc2
            | (acc2, some e2) => (acc2, some e2)) = (collected, some e)
      cases hi : pyIter gv with
      | error e2 =>
        rw [hi] at h1
        exact h1
      | ok groups =>
        rw [hi] at h1
        have h2 : (match extractFromGroups groups acc with
            | (acc2, none) => extractFromResults rs acc2
            | (acc2, some e2) => (acc2, some e2)) = (collected, some e) := h1
        show (match extractFromGroups groups acc with
            | (acc2, none) => extractFromResults (rs ++ l2) acc2
            | (acc2, some e2) => (acc2, some e2)) = (collected, some e)
        rcases hge : extractFromGroups groups acc with ⟨acc2, opt⟩
        rw [hge] at h2
        cases opt with
        | none => exact ih acc2 h2
        | some e2 => exact h2

/-- C5: `extract_services` aborts the whole extraction at the first
KeyError met while walking ResultsByTime/Groups/Keys and returns the
partial set collected strictly before that point — stop on first error,
not per-entry skip: every bucket after the failing prefix is ignored. -/
theorem extract_stops_at_first_key_error (l1 l2 collected : List JValue)
    (h : extractFromResults l1 [] = (collected, some PyError.keyError)) :
    extract_services
        (JValue.obj [("ResultsByTime", JValue.arr (l1 ++ l2))]) =
      .ok collected := by
  unfold extract_services
  simp only [getItem, lookupField, if_pos, pyIter]
  rw [extractFromResults_stop l1 l2 [] collected PyError.keyError h]

theorem extract_stops_at_first_key_error_witness :
    extractFromResults [JValue.obj []] [] = ([], some PyError.keyError) ∧
    extract_services (JValue.obj [("ResultsByTime", JValue.arr
      ([JValue.obj []] ++
       [JValue.obj [("Groups", JValue.arr
         [JValue.obj [("Keys", JValue.arr [JValue.str "S3"])]])]]))]) =
      .ok [] :=
  ⟨by decide, extract_stops_at_first_key_error _ _ _ (by decide)⟩

/-- C2: on a successful run — the query returned data, the extracted
service set is non-empty, the baseline loaded without raising and the
write succeeds — the persisted baseline afterwards is exactly the current
service set of that run: the file holds the JSON array of the current
set, and loading it back yields a set with exactly the current elements. -/
theorem flag_successful_run_updates_baseline (r : String) (v : JValue)
    (fs : FileState) (current previous : List JValue)
    (ht : pyTruthy v = true)
    (he : extract_services v = .ok current)
    (hne : current ≠ [])
    (hl : load_previous_services fs = .ok previous) :
    (flag_new_services r (.ok v) true fs).2 =
      FileState.json (JValue.arr current) ∧
    load_previous_services ((flag_new_services r (.ok v) true fs).2) =
      .ok (pySetOfList current) ∧
    (pySetOfList current).toFinset = current.toFinset := by
  have hflag : (flag_new_services r (.ok v) true fs).2 =
      FileState.json (JValue.arr current) := by
    simp only [flag_new_services, get_cost_and_usage, ht, he, hl, if_true,
      if_neg hne]
    by_cases hnew : compare_services previous current = []
    · simp [hnew, save_current_services]
    · simp only [if_neg hnew, save_current_services, if_true]
      rcases hj : pyJoin ", " (compare_services previous current) with e | j <;>
        simp [hj]
  exact ⟨hflag, by rw [hflag]; rfl, pySetOfList_toFinset current⟩

theorem flag_successful_run_updates_baseline_witness :
    (flag_new_services "us-east-1" (Except.ok (JValue.obj [("ResultsByTime",
        JValue.arr [JValue.obj [("Groups", JValue.arr [JValue.obj [("Keys",
        JValue.arr [JValue.str "EC2"])]])]])])) true FileState.absent).2 =
      FileState.json (JValue.arr [JValue.str "EC2"]) ∧
    load_previous_services
        ((flag_new_services "us-east-1" (Except.ok (JValue.obj
          [("ResultsByTime", JValue.arr [JValue.obj [("Groups", JValue.arr
          [JValue.obj [("Keys", JValue.arr [JValue.str "EC2"])]])]])])) true
          FileState.absent).2) =
      .ok (pySetOfList [JValue.str "EC2"]) ∧
    (pySetOfList [JValue.str "EC2"]).toFinset =
      ([JValue.str "EC2"] : List JValue).toFinset :=
  flag_successful_run_updates_baseline "us-east-1"
    (JValue.obj [("ResultsByTime", JValue.arr [JValue.obj [("Groups",
      JValue.arr [JValue.obj [("Keys", JValue.arr [JValue.str "EC2"])]])]])])
    FileState.absent [JValue.str "EC2"] [] rfl (by decide) (by decide) rfl

/-- Mapping a function over an Except leaves an error untouched. -/
theorem exceptMap_error {α β γ : Type} (f : α → β) (e : γ) :
    Except.map f (Except.error e) = (Except.error e : Except γ β) := rfl

/-- Iterating a non-iterable value raises exactly TypeError. -/
theorem pyIter_error_typeError (v : JValue) (e : PyError)
    (h : pyIter v = .error e) : e = PyError.typeError := by
  cases v <;> simp_all [pyIter]

/-- Joining a list with a non-string element raises exactly TypeError. -/
theorem strValues_error_typeError (l : List JValue) (e : PyError)
    (h : strValues l = .error e) : e = PyError.typeError := by
  induction l with
  | nil => simp [strValues] at h
  | cons x xs ih =>
    cases x with
    | str s =>
      simp only [strValues] at h
      cases hx : strValues xs with
      | error e2 =>
        rw [hx, exceptMap_error] at h
        cases h
        exact ih hx
      | ok tl =>
        rw [hx] at h
        simp [Except.map] at h
    | null => simp_all [strValues]
    | bool b => simp_all [strValues]
    | num n => simp_all [strValues]
    | arr l2 => simp_all [strValues]
    | obj l2 => simp_all [strValues]

/-- The only exception the baseline loader can propagate is the TypeError
from calling `set` on a non-iterable parsed value. -/
theorem load_error_typeError (fs : FileState) (e : PyError)
    (h : load_previous_services fs = .error e) : e = PyError.typeError := by
  cases fs with
  | absent => simp [load_previous_services] at h
  | invalid => simp [load_previous_services] at h
  | json v =>
    simp only [load_previous_services] at h
    cases hi : pyIter v with
    | error e2 =>
      rw [hi] at h
      cases h
      exact pyIter_error_typeError v e hi
    | ok elems =>
      rw [hi] at h
      simp at h

/-- The only exception `', '.join` can raise here is TypeError. -/
theorem pyJoin_error_typeError (sep : String) (l : List JValue) (e : PyError)
    (h : pyJoin sep l = .error e) : e = PyError.typeError := by
  unfold pyJoin at h
  cases hs : strValues l with
  | error e2 =>
    rw [hs, exceptMap_error] at h
    cases h
    exact strValues_error_typeError l e hs
  | ok tl =>
    rw [hs] at h
    simp [Except.map] at h

/-- The extractor's `except KeyError` guarantees that a KeyError never
escapes `extract_services`; only IndexError or TypeError can. -/
theorem extract_services_error_not_key (d : JValue) (e : PyError)
    (h : extract_services d = .error e) :
    e = PyError.indexError ∨ e = PyError.typeError := by
  unfold extract_services at h
  cases hg : getItem d "ResultsByTime" with
  | error e2 =>
    rw [hg] at h
    cases e2 with
    | keyError => simp at h
    | indexError =>
      have h' : (Except.error PyError.indexError :
          Except PyError (List JValue)) = .error e := h
      cases h'
      exact Or.inl rfl
    | typeError =>
      have h' : (Except.error PyError.typeError :
          Except PyError (List JValue)) = .error e := h
      cases h'
      exact Or.inr rfl
  | ok v =>
    rw [hg] at h
    have h1 : (match pyIter v with
        | .error e2 => (.error e2 : Except PyError (List JValue))
        | .ok results =>
          match extractFromResults results [] with
          | (services, none) => .ok services
          | (services, some .keyError) => .ok services
          | (_, some e2) => .error e2) = .error e := h
    cases hi : pyIter v with
    | error e2 =>
      rw [hi] at h1
      cases h1
      exact Or.inr (pyIter_error_typeError v e hi)
    | ok results =>
      rw [hi] at h1
      have h2 : (match extractFromResults results [] with
          | (services, none) => (.ok services : Except PyError (List JValue))
          | (services, some .keyError) => .ok services
          | (_, some e2) => .error e2) = .error e := h1
      rcases hr : extractFromResults results [] with ⟨s, opt⟩
      rw [hr] at h2
      cases opt with
      | none => simp at h2
      | some e2 =>
        cases e2 with
        | keyError => simp at h2
        | indexError =>
          have h' : (Except.error PyError.indexError :
              Except PyError (List JValue)) = .error e := h2
          cases h'
          exact Or.inl rfl
        | typeError =>
          have h' : (Except.error PyError.typeError :
              Except PyError (List JValue)) = .error e := h2
          cases h'
          exact Or.inr rfl

/-- C6 (amended): the claim as written is false — see the counterexample
`flag_new_services_can_crash_on_empty_keys`.  What does hold: a KeyError
never propagates (the extractor degrades to a partial or empty set on
missing keys), so any exception that does escape `extract_services`, and
through it `flag_new_services`, is an IndexError (empty `Keys` list) or a
TypeError (wrong-shaped value being subscripted, iterated or joined);
apart from those exceptional shapes the caller receives a string. -/
theorem flag_uncaught_errors_are_index_or_type (d : JValue) (r : String)
    (api : Except Unit JValue) (w : Bool) (fs : FileState) (e e2 : PyError) :
    (extract_services d = .error e →
      e = PyError.indexError ∨ e = PyError.typeError) ∧
    ((flag_new_services r api w fs).1 = .error e2 →
      e2 = PyError.indexError ∨ e2 = PyError.typeError) := by
  constructor
  · exact extract_services_error_not_key d e
  · intro h
    simp only [flag_new_services] at h
    cases hc : get_cost_and_usage api with
    | none => simp [hc] at h
    | some v =>
      simp only [hc] at h
      by_cases ht : pyTruthy v
      · simp only [ht, if_true] at h
        cases hx : extract_services v with
        | error e3 =>
          simp [hx] at h
          exact h ▸ extract_services_error_not_key v e3 hx
        | ok current =>
          simp only [hx] at h
          by_cases hcur : current = []
          · simp [hcur] at h
          · simp only [if_neg hcur] at h
            cases hld : load_previous_services fs with
            | error e3 =>
              simp [hld] at h
              exact h ▸ Or.inr (load_error_typeError fs e3 hld)
            | ok prev =>
              simp only [hld] at h
              by_cases hnew : compare_services prev current = []
              · simp [hnew] at h
              · simp only [if_neg hnew] at h
                cases hj : pyJoin ", " (compare_services prev current) with
                | error e3 =>
                  simp [hj] at h
                  exact h ▸ Or.inr (pyJoin_error_typeError ", " _ e3 hj)
                | ok joined => simp [hj] at h
      · simp [ht] at h

/-- C6 (counterexample): a response whose `Keys` list is empty makes
`group['Keys'][0]` raise IndexError, which `except KeyError` does not
catch, so `flag_new_services` propagates an exception instead of
returning a string — refuting the claim that no failure ever reaches the
caller. -/
theorem flag_new_services_can_crash_on_empty_keys :
    (flag_new_services "us-east-1" (Except.ok (JValue.obj [("ResultsByTime",
        JValue.arr [JValue.obj [("Groups", JValue.arr [JValue.obj [("Keys",
        JValue.arr [])]])]])])) true FileState.absent).1 =
      .error PyError.indexError := by decide

theorem flag_uncaught_errors_are_index_or_type_witness :
    (PyError.indexError = PyError.indexError ∨
      PyError.indexError = PyError.typeError) ∧
    (PyError.typeError = PyError.indexError ∨
      PyError.typeError = PyError.typeError) :=
  ⟨(flag_uncaught_errors_are_index_or_type (JValue.obj [("ResultsByTime",
      JValue.arr [JValue.obj [("Groups", JValue.arr [JValue.obj [("Keys",
      JValue.arr [])]])]])]) "us-east-1" (Except.ok (JValue.arr
      [JValue.str "x"])) true FileState.absent PyError.indexError
      PyError.typeError).1 (by decide),
   (flag_uncaught_errors_are_index_or_type (JValue.obj [("ResultsByTime",
      JValue.arr [JValue.obj [("Groups", JValue.arr [JValue.obj [("Keys",
      JValue.arr [])]])]])]) "us-east-1" (Except.ok (JValue.arr
      [JValue.str "x"])) true FileState.absent PyError.indexError
      PyError.typeError).2 (by decide)⟩

/-- C8: on the success path (truthy query response, non-empty extraction,
baseline loaded) the returned string is "New AWS services detected: "
followed by the comma-joined identifiers of the new set if it is
non-empty, and exactly "No new AWS services detected since last check."
otherwise (`ss` names the string values of the new set, in the model's
iteration order; Python leaves set iteration order unspecified). -/
theorem flag_success_path_message (r : String) (v : JValue) (w : Bool)
    (fs : FileState) (current previous : List JValue) (ss : List String)
    (ht : pyTruthy v = true)
    (he : extract_services v = .ok current)
    (hne : current ≠ [])
    (hl : load_previous_services fs = .ok previous)
    (hs : strValues (compare_services previous current) = .ok ss) :
    (flag_new_services r (.ok v) w fs).1 =
      .ok (if compare_services previous current = []
        then "No new AWS services detected since last check."
        else "New AWS services detected: " ++ String.intercalate ", " ss) := by
  simp only [flag_new_services, get_cost_and_usage, ht, he, hl, if_true,
    if_neg hne]
  by_cases hnew : compare_services previous current = []
  · simp [hnew]
  · simp only [if_neg hnew, pyJoin, hs]
    simp [Except.map, hnew]

theorem flag_success_path_message_witness :
    (flag_new_services "us-east-1" (Except.ok (JValue.obj [("ResultsByTime",
        JValue.arr [JValue.obj [("Groups", JValue.arr [JValue.obj [("Keys",
        JValue.arr [JValue.str "EC2"])]])]])])) true FileState.absent).1 =
      .ok (if compare_services [] [JValue.str "EC2"] = []
        then "No new AWS services detected since last check."
        else "New AWS services detected: " ++
          String.intercalate ", " ["EC2"]) :=
  flag_success_path_message "us-east-1"
    (JValue.obj [("ResultsByTime", JValue.arr [JValue.obj [("Groups",
      JValue.arr [JValue.obj [("Keys", JValue.arr [JValue.str "EC2"])]])]])])
    true FileState.absent [JValue.str "EC2"] [] ["EC2"] rfl (by decide)
    (by decide) rfl (by decide)
